import Mathlib

/-
Verification development for the playful-pet-chat voice-chat front-end.

The definitions below are shallow embeddings of the TypeScript source:
  * src/src/hooks/useAudioChat.ts (final revision, the one exporting
    startRandomConversation) for the conversation session, processAudio,
    resetConversationIfNeeded, the settings-change reset effect and
    clearConversation;
  * src/unnamed/part_003 for the recording-strategy fallback machine
    (useAlternativeRecording, recordingFailureCountRef) and the manual
    AudioContext/WAV recorder (createAudioContextRecorder, encodeWavFile);
  * src/src/pages/Index.tsx for the persisted-profile load/migration;
  * src/src/lib/config/prompts.ts for the prompt constants.

Modelling conventions:
  * React useState is treated as a store: a setState call is a pending
    store write and the last write of a callback invocation wins, while
    the local binding captured by the callback keeps the value it had on
    entry (this mirrors the actual closure semantics of the hooks).
  * The two HTTP calls are nondeterministic inputs, given as FetchOutcome
    parameters; the embedding records which requests were issued.
  * JavaScript numbers used as byte counts and timestamps are Nat; the
    32-bit float samples of the manual recorder are idealised as Rat.
-/

namespace PetChat

/-- Role of a conversation message, from the ConversationMessage interface. -/
inductive Role where
  | system
  | user
  | assistant
deriving DecidableEq, Repr

/-- Embedding of the ConversationMessage interface:
role, optional content, optional audio continuation id. -/
structure ConversationMessage where
  role : Role
  content : Option String
  audioId : Option String
deriving DecidableEq, Repr

/-- Gender field of the child profile (SettingsPanel ChildSettings). -/
inductive Gender where
  | boy
  | girl
  | other
deriving DecidableEq, Repr

/-- Language field of the child profile (SettingsPanel ChildSettings). -/
inductive Language where
  | english
  | german
deriving DecidableEq, Repr

/-- Embedding of the ChildSettings interface from SettingsPanel. -/
structure ChildSettings where
  name : String
  age : String
  gender : Gender
  language : Language
  apiKey : String
deriving DecidableEq, Repr

/-- CONVERSATION_TIMEOUT = 3 * 60 * 1000 milliseconds (useAudioChat.ts). -/
def CONVERSATION_TIMEOUT : Nat := 3 * 60 * 1000

/-- Embedding of isValidAudioBlob from useAudioChat.ts: the blob size must
exceed 1024 bytes. -/
def isValidAudioBlob (blobSize : Nat) : Bool :=
  blobSize > 1024

/-- Embedding of CHILD_CHAT_PROMPT from src/src/lib/config/prompts.ts. -/
def CHILD_CHAT_PROMPT : Language → String
  | Language.english => "You are a friendly voice assistant for children. Be warm, playful, and educational in your interactions. Keep responses brief (1-3 sentences for younger children, 3-5 sentences for older children) unless asked for more details. Use age-appropriate vocabulary and explanations. Foster curiosity by occasionally including fun facts and asking gentle questions. Respond with enthusiasm to the child\x27s interests and questions. If unsure about a topic, say \x27That\x27s a great question! I\x27m not sure, but we could learn about it together!\x27 Emphasize positive themes like nature, space, science, creativity, and kind social interactions. Always prioritize safety by avoiding frightening, harmful, or inappropriate content. Never discuss mature themes, violence, or anything potentially distressing. Maintain a supportive, encouraging tone throughout all conversations."
  | Language.german => "Du bist ein freundlicher Sprachassistent für Kinder. Sei warm, verspielt und lehrreich in deinen Interaktionen. Halte Antworten kurz (1-3 Sätze für jüngere Kinder, 3-5 Sätze für ältere Kinder), es sei denn, es werden mehr Details gewünscht. Verwende altersgerechtes Vokabular und Erklärungen. Fördere Neugier, indem du gelegentlich interessante Fakten einbaust und sanfte Fragen stellst. Reagiere mit Begeisterung auf die Interessen und Fragen des Kindes. Wenn du bei einem Thema unsicher bist, sage \x27Das ist eine tolle Frage! Ich bin mir nicht sicher, aber wir könnten gemeinsam darüber lernen!\x27 Betone positive Themen wie Natur, Weltraum, Wissenschaft, Kreativität und freundliche soziale Interaktionen. Priorisiere immer die Sicherheit, indem du beängstigende, schädliche oder unangemessene Inhalte vermeidest. Diskutiere niemals Erwachsenenthemen, Gewalt oder potenziell beunruhigende Inhalte. Behalte während aller Gespräche einen unterstützenden, ermutigenden Ton bei."

/-- Embedding of RANDOM_CONVERSATION_PROMPT from src/src/lib/config/prompts.ts. -/
def RANDOM_CONVERSATION_PROMPT : Language → String
  | Language.english => "You are a friendly voice assistant for children. Be warm, playful, and educational in your interactions. Keep responses brief (1-3 sentences for younger children, 3-5 sentences for older children) unless asked for more details. Use age-appropriate vocabulary and explanations. The child has pressed a \x27random conversation\x27 button, and you\x27re initiating a conversation about a specific topic. Begin your response with an enthusiastic greeting that repeats the conversation topic. For example, if the topic is \x27Tell me about space\x27, start with \x27Hello! You want to know about space? That\x27s awesome!\x27 Then provide engaging, educational content about the topic. Make it interactive by asking a simple follow-up question at the end to encourage continued conversation. Always prioritize safety by avoiding frightening, harmful, or inappropriate content. Maintain an enthusiastic, encouraging tone throughout all conversations."
  | Language.german => "Du bist ein freundlicher Sprachassistent für Kinder. Sei warm, verspielt und lehrreich in deinen Interaktionen. Halte Antworten kurz (1-3 Sätze für jüngere Kinder, 3-5 Sätze für ältere Kinder), es sei denn, es werden mehr Details gewünscht. Verwende altersgerechtes Vokabular und Erklärungen. Das Kind hat einen \x27Zufälliges Gespräch\x27-Knopf gedrückt, und du beginnst ein Gespräch über ein bestimmtes Thema. Beginne deine Antwort mit einer enthusiastischen Begrüßung, die das Gesprächsthema wiederholt. Zum Beispiel, wenn das Thema \x27Erzähl mir über den Weltraum\x27 ist, beginne mit \x27Hallo! Du möchtest etwas über den Weltraum wissen? Das ist toll!\x27 Dann liefere ansprechende, lehrreiche Inhalte zu diesem Thema. Mache es interaktiv, indem du am Ende eine einfache Anschlussfrage stellst, um das Gespräch fortzuführen. Priorisiere immer die Sicherheit, indem du beängstigende, schädliche oder unangemessene Inhalte vermeidest. Behalte während des gesamten Gesprächs einen begeisterten, ermutigenden Ton bei."

/-- Embedding of the childName fragment: a nonempty name adds a sentence. -/
def childNameFragment (settings : ChildSettings) : String :=
  if settings.name ≠ "" then "\n\nThe child\x27s name is " ++ settings.name ++ "." else ""

/-- Embedding of languageContext in processAudio. -/
def languageContext (settings : ChildSettings) : String :=
  if settings.language = Language.german then "Please respond in German." else "Please respond in English."

/-- System message built freshly by processAudio for each round
(prompt, optional child name, language context, fixed suffix). -/
def systemMessage (settings : ChildSettings) : ConversationMessage :=
  { role := Role.system
    content := some (CHILD_CHAT_PROMPT settings.language ++ childNameFragment settings
      ++ " " ++ languageContext settings ++ " Keep responses short and engaging for children.")
    audioId := none }

/-- System message built freshly by startRandomConversation. -/
def randomSystemMessage (settings : ChildSettings) : ConversationMessage :=
  { role := Role.system
    content := some (RANDOM_CONVERSATION_PROMPT settings.language ++ childNameFragment settings
      ++ " " ++ languageContext settings ++ " Keep responses short and engaging for children.")
    audioId := none }

/-- Outcome of one fetch call: the fetch itself may throw (network error),
the response may carry a non-success HTTP status, or it succeeds with a
decoded JSON payload. -/
inductive FetchOutcome (α : Type) where
  | networkThrow
  | httpError
  | ok (payload : α)
deriving DecidableEq, Repr

/-- Payload of a successful transcription response: the text field,
which may be absent. -/
structure TranscriptionResponse where
  text : Option String
deriving DecidableEq, Repr

/-- Payload of a successful chat-completion response: choices[0].message
content, audio id and audio transcript, each possibly absent. -/
structure ChatResponse where
  content : Option String
  audioId : Option String
  transcript : Option String
deriving DecidableEq, Repr

/-- HTTP request kinds issued by a round. -/
inductive Request where
  | transcription
  | chatCompletion
deriving DecidableEq, Repr

/-- Distinct failure exits of processAudio / startRandomConversation,
one per throw site. -/
inductive ProcessError where
  | missingApiKey
  | invalidBlob
  | transcriptionNetworkError
  | transcriptionHttpError
  | couldNotUnderstand
  | chatNetworkError
  | chatHttpError
deriving DecidableEq, Repr

/-- Conversation-relevant state of the hook before a round:
the conversationMessages store and lastInteractionTimeRef. -/
structure ChatState where
  conversation : List ConversationMessage
  lastInteractionTime : Nat
deriving DecidableEq, Repr

/-- Observable outcome of one round: the conversation store after the last
state write, the last-interaction timestamp, the HTTP requests issued, the
message array sent to the chat-completion endpoint (if that request was
issued), and the error exit taken (none on success). -/
structure ProcessResult where
  conversation : List ConversationMessage
  lastInteractionTime : Nat
  requests : List Request
  chatRequestMessages : Option (List ConversationMessage)
  error : Option ProcessError
deriving DecidableEq, Repr

/-- User message appended for a round, with the given text as content. -/
def mkUserMessage (text : String) : ConversationMessage :=
  ⟨Role.user, some text, none⟩

/-- Assistant message built from a successful chat-completion response:
content is the response text (content field, defaulting to the empty
string), the audio id is attached when present, and the dead
content-is-null branch substitutes the audio transcript. This block is
duplicated verbatim in processAudio and startRandomConversation. -/
def assistantMessageOf (chatData : ChatResponse) : ConversationMessage :=
  let responseText := chatData.content.getD ""
  let assistantMessage0 : ConversationMessage :=
    ⟨Role.assistant, some responseText, none⟩
  let assistantMessage1 :=
    if chatData.audioId.isSome then
      { assistantMessage0 with audioId := chatData.audioId }
    else assistantMessage0
  if assistantMessage1.content = none ∧ chatData.transcript.isSome then
    { assistantMessage1 with content := chatData.transcript }
  else assistantMessage1

/-- Embedding of resetConversationIfNeeded: clears the conversation store
when the time since the last interaction strictly exceeds
CONVERSATION_TIMEOUT; returns the store and the was-reset flag. -/
def resetConversationIfNeeded (conversation : List ConversationMessage)
    (now lastInteractionTime : Nat) : List ConversationMessage × Bool :=
  if now - lastInteractionTime > CONVERSATION_TIMEOUT then ([], true)
  else (conversation, false)

/-- Model of the JavaScript trim() call: leading and trailing whitespace
characters are removed. -/
def jsTrim (s : String) : String :=
  String.mk ((s.data.dropWhile Char.isWhitespace).reverse.dropWhile Char.isWhitespace).reverse

/-- Blankness test applied to the transcribed text:
absent, empty, or whitespace-only after trim. -/
def isBlankText : Option String → Bool
  | none => true
  | some t => jsTrim t = ""

/-- Embedding of processAudio from useAudioChat.ts (final revision).

Order of the source: resetConversationIfNeeded writes the store; the api
key resolves from the environment or the settings; the blob is validated;
the transcription request is issued and checked (non-success status, then
blank text); per-round system and user messages are built; the outgoing
message array prepends the system message to the captured conversation
(the closure binding, unchanged by the reset write) plus the new user
message; the chat-completion request is issued and checked; on success the
store is overwritten with captured ++ [user, assistant] and
scheduleConversationReset sets lastInteractionTime to now. Playback,
filename selection and logging do not touch the modelled state and are
omitted. -/
def processAudio (st : ChatState) (now : Nat) (settings : ChildSettings)
    (envApiKey : String) (blobSize : Nat)
    (tr : FetchOutcome TranscriptionResponse)
    (chat : FetchOutcome ChatResponse) : ProcessResult :=
  let store1 := (resetConversationIfNeeded st.conversation now st.lastInteractionTime).1
  let captured := st.conversation
  let apiKey := if envApiKey ≠ "" then envApiKey else settings.apiKey
  if apiKey = "" then
    ⟨store1, st.lastInteractionTime, [], none, some ProcessError.missingApiKey⟩
  else if ¬ isValidAudioBlob blobSize then
    ⟨store1, st.lastInteractionTime, [], none, some ProcessError.invalidBlob⟩
  else
    match tr with
    | FetchOutcome.networkThrow =>
        ⟨store1, st.lastInteractionTime, [Request.transcription], none,
          some ProcessError.transcriptionNetworkError⟩
    | FetchOutcome.httpError =>
        ⟨store1, st.lastInteractionTime, [Request.transcription], none,
          some ProcessError.transcriptionHttpError⟩
    | FetchOutcome.ok trData =>
        if isBlankText trData.text then
          ⟨store1, st.lastInteractionTime, [Request.transcription], none,
            some ProcessError.couldNotUnderstand⟩
        else
          let transcribedText := trData.text.getD ""
          let userMessage := mkUserMessage transcribedText
          let messages :=
            if captured.length > 0 then
              systemMessage settings :: captured ++ [userMessage]
            else
              [systemMessage settings, userMessage]
          match chat with
          | FetchOutcome.networkThrow =>
              ⟨store1, st.lastInteractionTime,
                [Request.transcription, Request.chatCompletion], some messages,
                some ProcessError.chatNetworkError⟩
          | FetchOutcome.httpError =>
              ⟨store1, st.lastInteractionTime,
                [Request.transcription, Request.chatCompletion], some messages,
                some ProcessError.chatHttpError⟩
          | FetchOutcome.ok chatData =>
              let updatedConversation :=
                captured ++ [userMessage, assistantMessageOf chatData]
              ⟨updatedConversation, now,
                [Request.transcription, Request.chatCompletion], some messages, none⟩

/-- Embedding of clearConversation: unconditionally empties the store. -/
def clearConversation (_conversation : List ConversationMessage) : List ConversationMessage :=
  []

/-- Embedding of the settings-change effect of useAudioChat.ts: the effect
body runs when the language or gender dependency changed and clears a
non-empty conversation; an unchanged dependency list leaves the store
alone. -/
def settingsChangeEffect (oldSettings newSettings : ChildSettings)
    (conversation : List ConversationMessage) : List ConversationMessage :=
  if oldSettings.language ≠ newSettings.language ∨ oldSettings.gender ≠ newSettings.gender then
    if conversation.length > 0 then [] else conversation
  else conversation

/-- Embedding of startRandomConversation from useAudioChat.ts. The guard
returns untouched state while recording or loading; otherwise the round
runs resetConversationIfNeeded, checks the api key, builds the random
system message and the starter user message, issues the chat-completion
request, and on success overwrites the store with exactly the two new
turns (prior turns are not included). The conversation starter is an
input, standing for getRandomConversationStarter. -/
def startRandomConversation (st : ChatState) (now : Nat) (settings : ChildSettings)
    (envApiKey : String) (isRecording isLoading : Bool) (starter : String)
    (chat : FetchOutcome ChatResponse) : ProcessResult :=
  if isRecording || isLoading then
    ⟨st.conversation, st.lastInteractionTime, [], none, none⟩
  else
    let store1 := (resetConversationIfNeeded st.conversation now st.lastInteractionTime).1
    let apiKey := if envApiKey ≠ "" then envApiKey else settings.apiKey
    if apiKey = "" then
      ⟨store1, st.lastInteractionTime, [], none, some ProcessError.missingApiKey⟩
    else
      let userMessage := mkUserMessage starter
      let messages := [randomSystemMessage settings, userMessage]
      match chat with
      | FetchOutcome.networkThrow =>
          ⟨store1, st.lastInteractionTime, [Request.chatCompletion], some messages,
            some ProcessError.chatNetworkError⟩
      | FetchOutcome.httpError =>
          ⟨store1, st.lastInteractionTime, [Request.chatCompletion], some messages,
            some ProcessError.chatHttpError⟩
      | FetchOutcome.ok chatData =>
          let updatedConversation := [userMessage, assistantMessageOf chatData]
          ⟨updatedConversation, now, [Request.chatCompletion], some messages, none⟩

/-
Recording-strategy fallback machine, from src/unnamed/part_003.
The module-level useAlternativeRecording flag starts as isIOS();
recordingFailureCountRef counts recording failures. The transitions are
taken verbatim from the failure handlers of startRecording / stopRecording
and from resetRecordingMethod.
-/

/-- Mutable strategy state: the module-level useAlternativeRecording flag
and recordingFailureCountRef. -/
structure StrategyState where
  useAlternativeRecording : Bool
  recordingFailureCount : Nat
deriving DecidableEq, Repr

/-- Recording-session events that touch the strategy state.
captureFailure covers the onstop failure paths: a completed recording with
no chunks, only empty chunks, an undersized payload, or a processing
error. recorderError is the MediaRecorder onerror handler.
constructionFailure is the catch where both MediaRecorder constructions
threw. toggleMethod is resetRecordingMethod, the manual override. -/
inductive RecordingEvent where
  | captureFailure
  | recorderError
  | constructionFailure
  | successfulRecording
  | toggleMethod
deriving DecidableEq, Repr

/-- One strategy transition, parameterised by the platform (isIOS).

Source: the onstop failure paths increment the counter and switch at
count >= 2, guarded by isIOS() && !useAlternativeRecording; the onerror
handler increments and switches at count >= 1 under the same guard; the
construction-failure catch switches immediately on iOS without touching
the counter; resetRecordingMethod flips the flag and zeroes the counter;
a successful recording changes nothing. -/
def strategyStep (iOS : Bool) (s : StrategyState) (ev : RecordingEvent) : StrategyState :=
  match ev with
  | RecordingEvent.captureFailure =>
      if iOS ∧ ¬ s.useAlternativeRecording then
        let c := s.recordingFailureCount + 1
        { useAlternativeRecording := if c ≥ 2 then true else s.useAlternativeRecording
          recordingFailureCount := c }
      else s
  | RecordingEvent.recorderError =>
      if iOS ∧ ¬ s.useAlternativeRecording then
        let c := s.recordingFailureCount + 1
        { useAlternativeRecording := if c ≥ 1 then true else s.useAlternativeRecording
          recordingFailureCount := c }
      else s
  | RecordingEvent.constructionFailure =>
      if iOS then { s with useAlternativeRecording := true } else s
  | RecordingEvent.successfulRecording => s
  | RecordingEvent.toggleMethod =>
      { useAlternativeRecording := ¬ s.useAlternativeRecording
        recordingFailureCount := 0 }

/-- Run a sequence of strategy events from an initial state. -/
def strategyRun (iOS : Bool) (s : StrategyState) (evs : List RecordingEvent) : StrategyState :=
  evs.foldl (strategyStep iOS) s

/-- Initial strategy state: useAlternativeRecording = isIOS(), counter 0. -/
def initialStrategyState (iOS : Bool) : StrategyState :=
  ⟨iOS, 0⟩

/-- Recording mode selected by startRecording / stopRecording: the manual
sample (AudioContext/WAV) encoder is used exactly under
isIOS() && useAlternativeRecording. -/
def usesManualEncoder (iOS : Bool) (s : StrategyState) : Bool :=
  iOS && s.useAlternativeRecording

/-
Manual sample encoder, from src/unnamed/part_003:
createAudioContextRecorder stop() and encodeWavFile. Samples are
idealised as rationals; bytes are Nat values below 256.
-/

/-- Concatenation performed by the stop() merge loop: each accumulated
per-callback buffer is copied at consecutive offsets into one array of the
total length, in capture order. -/
def mergeRecordingBuffers (recordingBuffer : List (List ℚ)) : List ℚ :=
  recordingBuffer.foldl (fun acc buffer => acc ++ buffer) []

/-- Truncation toward zero, the ToInteger step of DataView setInt16. -/
def jsTrunc (q : ℚ) : Int :=
  if q < 0 then -Int.floor (-q) else Int.floor q

/-- Per-sample conversion of encodeWavFile: multiply by the volume factor
0.9, clamp to [-1, 1], then scale negative values by 0x8000 and
non-negative values by 0x7FFF and truncate to an integer. -/
def floatToInt16 (sample : ℚ) : Int :=
  let clamped := max (-1) (min 1 (sample * (9 / 10)))
  if clamped < 0 then jsTrunc (clamped * 32768) else jsTrunc (clamped * 32767)

/-- Little-endian bytes of a 16-bit unsigned write (DataView setUint16). -/
def u16le (v : Nat) : List Nat :=
  [v % 256, v / 256 % 256]

/-- Little-endian bytes of a 32-bit unsigned write (DataView setUint32). -/
def u32le (v : Nat) : List Nat :=
  [v % 256, v / 256 % 256, v / 65536 % 256, v / 16777216 % 256]

/-- Little-endian bytes of a 16-bit signed write (DataView setInt16). -/
def int16le (z : Int) : List Nat :=
  u16le (z % 65536).toNat

/-- Embedding of writeUTFBytes: one byte per character code. -/
def writeUTFBytes (s : String) : List Nat :=
  s.data.map Char.toNat

/-- Header written by encodeWavFile at offsets 0..43: RIFF chunk
descriptor with size 36 + 2n, WAVE tag, fmt sub-chunk of size 16 with
format tag 1 (PCM), 1 channel, the sample rate, byte rate = 2 * rate,
block align 2 and 16 bits per sample, then the data sub-chunk tag with
size 2n. -/
def wavHeader (numSamples sampleRate : Nat) : List Nat :=
  writeUTFBytes "RIFF" ++ u32le (36 + numSamples * 2)
    ++ writeUTFBytes "WAVE" ++ writeUTFBytes "fmt "
    ++ u32le 16 ++ u16le 1 ++ u16le 1
    ++ u32le sampleRate ++ u32le (sampleRate * 2)
    ++ u16le 2 ++ u16le 16
    ++ writeUTFBytes "data" ++ u32le (numSamples * 2)

/-- Embedding of encodeWavFile: the 44-byte header followed by the two
little-endian bytes of each converted sample, in order. -/
def encodeWavFile (samples : List ℚ) (sampleRate : Nat) : List Nat :=
  wavHeader samples.length sampleRate
    ++ (samples.map (fun s => int16le (floatToInt16 s))).flatten

/-- Blob produced by the manual recorder stop(): the accumulated buffers
are merged in capture order and handed to encodeWavFile together with the
native sample rate of the capture AudioContext. -/
def audioContextRecorderStop (recordingBuffer : List (List ℚ)) (sampleRate : Nat) : List Nat :=
  encodeWavFile (mergeRecordingBuffers recordingBuffer) sampleRate

/-
Persisted-profile load, from src/src/pages/Index.tsx. The stored object is
modelled as an association list of field names and (stringified) values,
so that unrecognized fields can be represented.
-/

/-- Default profile returned when nothing is stored. -/
def defaultStoredSettings : List (String × String) :=
  [("name", ""), ("age", ""), ("gender", "other"), ("language", "english"), ("apiKey", "")]

/-- Embedding of the settings-load initializer of Index.tsx: a stored
object that contains the legacy customPrompt field is returned with that
one field removed (the rest destructuring keeps every other field); a
stored object without it is returned as parsed; with nothing stored the
default profile is used. -/
def loadChildSettings (saved : Option (List (String × String))) : List (String × String) :=
  match saved with
  | some parsed =>
      if parsed.any (fun kv => kv.1 = "customPrompt") then
        parsed.filter (fun kv => kv.1 ≠ "customPrompt")
      else parsed
  | none => defaultStoredSettings

/-- Absence of system-role turns in a stored conversation. -/
def noSystemRole (conversation : List ConversationMessage) : Prop :=
  ∀ m ∈ conversation, m.role ≠ Role.system

/-- Concrete child profile used to instantiate the theorems. -/
def demoSettings : ChildSettings :=
  ⟨"Mia", "6", Gender.girl, Language.english, "sk-demo"⟩

/-- Concrete prior conversation turn (user). -/
def demoUserTurn : ConversationMessage :=
  ⟨Role.user, some "hello", none⟩

/-- Concrete prior conversation turn (assistant). -/
def demoAssistantTurn : ConversationMessage :=
  ⟨Role.assistant, some "hi there", none⟩

/-- Concrete hook state with a two-turn prior conversation. -/
def demoState : ChatState :=
  ⟨[demoUserTurn, demoAssistantTurn], 0⟩

/-- Concrete successful transcription outcome. -/
def demoTranscription : FetchOutcome TranscriptionResponse :=
  FetchOutcome.ok ⟨some "what is a rabbit"⟩

/-- Concrete successful chat-completion outcome. -/
def demoChat : FetchOutcome ChatResponse :=
  FetchOutcome.ok ⟨some "A rabbit is a fluffy animal.", some "audio-1", none⟩

/-- Outgoing message list assembled by the round of the C2 counterexample:
the system message followed by the pre-reset conversation and the new
user turn. -/
def demoStaleMessages : List ConversationMessage :=
  systemMessage demoSettings :: demoState.conversation
    ++ [mkUserMessage "what is a rabbit"]

/-
Helper lemmas shared by the claim theorems below.
-/

/-- Assistant messages built from a chat response always carry the
assistant role. -/
theorem assistantMessageOf_role (chatData : ChatResponse) :
    (assistantMessageOf chatData).role = Role.assistant := by
  unfold assistantMessageOf
  dsimp only
  split_ifs <;> rfl

/-- Below or at the timeout, resetConversationIfNeeded keeps the store. -/
theorem resetConversationIfNeeded_of_le (conversation : List ConversationMessage)
    (now lastInteractionTime : Nat)
    (h : now - lastInteractionTime ≤ CONVERSATION_TIMEOUT) :
    resetConversationIfNeeded conversation now lastInteractionTime = (conversation, false) := by
  unfold resetConversationIfNeeded
  rw [if_neg (by omega)]

/-- Both branches of the outgoing-message assembly equal the system
message prepended to the captured conversation plus the user message. -/
theorem messages_branch_eq (sys u : ConversationMessage) (c : List ConversationMessage) :
    (if c.length > 0 then sys :: c ++ [u] else [sys, u]) = sys :: c ++ [u] := by
  split_ifs with h
  · rfl
  · have hc : c = [] := List.length_eq_zero.mp (by omega)
    subst hc
    rfl

/-- Whenever a round issues the chat-completion request, its message
array is the fresh system message prepended to the conversation captured
at the start of the round plus the new user turn — never the post-reset
store. -/
theorem processAudio_chatRequest_messages (st : ChatState) (now : Nat)
    (settings : ChildSettings) (envApiKey : String) (blobSize : Nat)
    (tr : FetchOutcome TranscriptionResponse) (chat : FetchOutcome ChatResponse) :
    ∀ msgs, (processAudio st now settings envApiKey blobSize tr chat).chatRequestMessages
        = some msgs →
      ∃ t, msgs = systemMessage settings :: (st.conversation ++ [mkUserMessage t]) := by
  unfold processAudio
  dsimp only
  simp only [messages_branch_eq]
  rcases tr with _ | _ | trData <;> dsimp only <;> split_ifs <;>
    intro msgs hmsgs <;>
    first
      | exact Option.noConfusion hmsgs
      | rcases chat with _ | _ | chatData <;> dsimp only at hmsgs <;>
          first
            | exact Option.noConfusion hmsgs
            | exact ⟨_, (Option.some.inj hmsgs).symm⟩

/-- Failed rounds leave the store exactly as the idle-reset step left it. -/
theorem processAudio_failure_conversation (st : ChatState) (now : Nat)
    (settings : ChildSettings) (envApiKey : String) (blobSize : Nat)
    (tr : FetchOutcome TranscriptionResponse) (chat : FetchOutcome ChatResponse)
    (herr : (processAudio st now settings envApiKey blobSize tr chat).error ≠ none) :
    (processAudio st now settings envApiKey blobSize tr chat).conversation
      = (resetConversationIfNeeded st.conversation now st.lastInteractionTime).1 := by
  unfold processAudio at herr ⊢
  rcases tr with _ | _ | trData <;> rcases chat with _ | _ | chatData <;>
    dsimp only at herr ⊢ <;> split_ifs at herr ⊢ <;>
      first
        | rfl
        | exact absurd rfl herr

/-- Successful rounds append exactly a user turn then an assistant turn to
the conversation captured at the start of the round. -/
theorem processAudio_success_conversation (st : ChatState) (now : Nat)
    (settings : ChildSettings) (envApiKey : String) (blobSize : Nat)
    (tr : FetchOutcome TranscriptionResponse) (chat : FetchOutcome ChatResponse)
    (hok : (processAudio st now settings envApiKey blobSize tr chat).error = none) :
    ∃ u a, u.role = Role.user ∧ a.role = Role.assistant ∧
      (processAudio st now settings envApiKey blobSize tr chat).conversation
        = st.conversation ++ [u, a] := by
  unfold processAudio at hok ⊢
  rcases tr with _ | _ | trData <;> rcases chat with _ | _ | chatData <;>
    dsimp only at hok ⊢ <;> split_ifs at hok ⊢ <;>
      exact ⟨_, _, rfl, assistantMessageOf_role _, rfl⟩

/-- C1: every successful inference round appends exactly two turns to the
conversation — one user turn followed by one assistant turn — and a round
that fails at any stage (missing api key, undersized blob, transcription
failure, empty transcript, or completion failure) appends zero turns:
its store is exactly the output of the idle-reset policy that ran at the
head of the round, and in particular the conversation is unchanged
whenever the idle reset did not fire. -/
theorem processAudio_round_atomicity (st : ChatState) (now : Nat)
    (settings : ChildSettings) (envApiKey : String) (blobSize : Nat)
    (tr : FetchOutcome TranscriptionResponse) (chat : FetchOutcome ChatResponse) :
    ((processAudio st now settings envApiKey blobSize tr chat).error = none →
      ∃ u a, u.role = Role.user ∧ a.role = Role.assistant ∧
        (processAudio st now settings envApiKey blobSize tr chat).conversation
          = st.conversation ++ [u, a]) ∧
    ((processAudio st now settings envApiKey blobSize tr chat).error ≠ none →
      (processAudio st now settings envApiKey blobSize tr chat).conversation
        = (resetConversationIfNeeded st.conversation now st.lastInteractionTime).1) ∧
    (now - st.lastInteractionTime ≤ CONVERSATION_TIMEOUT →
      (processAudio st now settings envApiKey blobSize tr chat).error ≠ none →
      (processAudio st now settings envApiKey blobSize tr chat).conversation
        = st.conversation) := by
  refine ⟨processAudio_success_conversation st now settings envApiKey blobSize tr chat,
    processAudio_failure_conversation st now settings envApiKey blobSize tr chat,
    fun hle herr => ?_⟩
  rw [processAudio_failure_conversation st now settings envApiKey blobSize tr chat herr,
    resetConversationIfNeeded_of_le st.conversation now st.lastInteractionTime hle]

/-- C1 witness: a fully successful concrete round appends exactly one user
turn and one assistant turn. -/
theorem processAudio_round_atomicity_witness :
    ∃ u a, u.role = Role.user ∧ a.role = Role.assistant ∧
      (processAudio demoState 1000 demoSettings "" 2000 demoTranscription demoChat).conversation
        = demoState.conversation ++ [u, a] :=
  (processAudio_round_atomicity demoState 1000 demoSettings "" 2000
    demoTranscription demoChat).1 (by decide)

/-- C2 counterexample: the claim fails at concrete inputs in two ways.
First, with an idle time of exactly 3 minutes (180000 ms, which is at
least the 3-minute threshold) resetConversationIfNeeded keeps a non-empty
conversation instead of clearing it, because the source compares with a
strict greater-than. Second, with an idle time of 4 minutes (240000 ms,
past even the strict threshold) the round that triggered the reset is not
assembled against a cleared conversation: its outgoing message list still
contains the prior user turn, and after the round succeeds that prior
turn is back in the store — the round assembles from the closure-captured
pre-reset conversation and writes it back. -/
theorem conversation_not_cleared_before_assembly :
    (180000 - 0 ≥ CONVERSATION_TIMEOUT ∧
      resetConversationIfNeeded [mkUserMessage "hi"] 180000 0
        = ([mkUserMessage "hi"], false) ∧
      [mkUserMessage "hi"] ≠ ([] : List ConversationMessage)) ∧
    (240000 - demoState.lastInteractionTime > CONVERSATION_TIMEOUT ∧
      (processAudio demoState 240000 demoSettings "" 2000
          demoTranscription demoChat).error = none ∧
      (processAudio demoState 240000 demoSettings "" 2000
          demoTranscription demoChat).chatRequestMessages = some demoStaleMessages ∧
      demoUserTurn ∈ demoStaleMessages ∧
      demoUserTurn ∈ (processAudio demoState 240000 demoSettings "" 2000
          demoTranscription demoChat).conversation ∧
      demoUserTurn ∈ demoState.conversation) := by
  refine ⟨⟨by decide, ?_, by decide⟩,
    by decide, by decide, rfl, by decide, by decide, by decide⟩
  unfold resetConversationIfNeeded
  rw [if_neg (by decide)]

/-- C2 (amended): when a round begins, the idle-reset step clears the
stored conversation in its entirety exactly when the idle time since the
last successful interaction strictly exceeds 3 minutes; at an idle time of
at most 3 minutes (including exactly 3 minutes) every prior turn is kept
in its original order, and the conversation is never partially cleared.
The clear does not reach the round already in flight, though: that round
assembles its outgoing message list from the conversation captured at its
start (the prior turns, in order, between the fresh system message and
the new user turn), a successful round writes captured ++
[user, assistant] back over the cleared store, and only a failed round
past the timeout leaves the store cleared. -/
theorem resetConversation_timeout_boundary (st : ChatState) (now : Nat)
    (settings : ChildSettings) (envApiKey : String) (blobSize : Nat)
    (tr : FetchOutcome TranscriptionResponse) (chat : FetchOutcome ChatResponse) :
    (now - st.lastInteractionTime > CONVERSATION_TIMEOUT →
      resetConversationIfNeeded st.conversation now st.lastInteractionTime = ([], true)) ∧
    (now - st.lastInteractionTime ≤ CONVERSATION_TIMEOUT →
      resetConversationIfNeeded st.conversation now st.lastInteractionTime
        = (st.conversation, false)) ∧
    (∀ msgs, (processAudio st now settings envApiKey blobSize tr chat).chatRequestMessages
        = some msgs →
      ∃ t, msgs = systemMessage settings :: (st.conversation ++ [mkUserMessage t])) ∧
    ((processAudio st now settings envApiKey blobSize tr chat).error = none →
      ∃ u a, (processAudio st now settings envApiKey blobSize tr chat).conversation
        = st.conversation ++ [u, a]) ∧
    (now - st.lastInteractionTime > CONVERSATION_TIMEOUT →
      (processAudio st now settings envApiKey blobSize tr chat).error ≠ none →
      (processAudio st now settings envApiKey blobSize tr chat).conversation = []) := by
  refine ⟨?_, resetConversationIfNeeded_of_le st.conversation now st.lastInteractionTime,
    processAudio_chatRequest_messages st now settings envApiKey blobSize tr chat,
    ?_, ?_⟩
  · intro h
    unfold resetConversationIfNeeded
    rw [if_pos h]
  · intro hok
    obtain ⟨u, a, _, _, hconv⟩ :=
      processAudio_success_conversation st now settings envApiKey blobSize tr chat hok
    exact ⟨u, a, hconv⟩
  · intro hgt herr
    rw [processAudio_failure_conversation st now settings envApiKey blobSize tr chat herr]
    unfold resetConversationIfNeeded
    rw [if_pos hgt]

/-- C2 witness: strictly past the timeout the store is cleared whole and
at the boundary kept whole; a concrete successful round past the timeout
still sends the captured turns and appends to them, while a concrete
failed round past the timeout leaves the store cleared. -/
theorem resetConversation_timeout_boundary_witness :
    resetConversationIfNeeded [mkUserMessage "hi"] 180001 0 = ([], true) ∧
    resetConversationIfNeeded [mkUserMessage "hi"] 180000 0
      = ([mkUserMessage "hi"], false) ∧
    (∃ t, demoStaleMessages
      = systemMessage demoSettings :: (demoState.conversation ++ [mkUserMessage t])) ∧
    (∃ u a, (processAudio demoState 240000 demoSettings "" 2000
        demoTranscription demoChat).conversation = demoState.conversation ++ [u, a]) ∧
    (processAudio demoState 240000 demoSettings "" 100
        demoTranscription demoChat).conversation = [] :=
  ⟨(resetConversation_timeout_boundary ⟨[mkUserMessage "hi"], 0⟩ 180001
      demoSettings "" 2000 demoTranscription demoChat).1 (by decide),
    (resetConversation_timeout_boundary ⟨[mkUserMessage "hi"], 0⟩ 180000
      demoSettings "" 2000 demoTranscription demoChat).2.1 (by decide),
    (resetConversation_timeout_boundary demoState 240000
      demoSettings "" 2000 demoTranscription demoChat).2.2.1 demoStaleMessages rfl,
    (resetConversation_timeout_boundary demoState 240000
      demoSettings "" 2000 demoTranscription demoChat).2.2.2.1 (by decide),
    (resetConversation_timeout_boundary demoState 240000
      demoSettings "" 100 demoTranscription demoChat).2.2.2.2 (by decide) (by decide)⟩

/-- C3: a recording whose payload size is below the 1024-byte threshold
makes processAudio report an error, and no HTTP request at all — neither
transcription nor chat completion — is issued for that round. -/
theorem undersized_blob_never_reaches_inference (st : ChatState) (now : Nat)
    (settings : ChildSettings) (envApiKey : String) (blobSize : Nat)
    (tr : FetchOutcome TranscriptionResponse) (chat : FetchOutcome ChatResponse)
    (hsmall : blobSize < 1024) :
    (processAudio st now settings envApiKey blobSize tr chat).error ≠ none ∧
    (processAudio st now settings envApiKey blobSize tr chat).requests = [] := by
  have hinvalid : ¬ isValidAudioBlob blobSize = true := by
    simp only [isValidAudioBlob, decide_eq_true_eq, Nat.not_lt]
    omega
  unfold processAudio
  dsimp only
  by_cases hkey : (if envApiKey ≠ "" then envApiKey else settings.apiKey) = ""
  · rw [if_pos hkey]
    exact ⟨Option.some_ne_none _, rfl⟩
  · rw [if_neg hkey, if_pos hinvalid]
    exact ⟨Option.some_ne_none _, rfl⟩

/-- C3 witness: a concrete 100-byte recording is rejected with no request
issued. -/
theorem undersized_blob_never_reaches_inference_witness :
    (processAudio demoState 1000 demoSettings "" 100 demoTranscription demoChat).error ≠ none ∧
    (processAudio demoState 1000 demoSettings "" 100 demoTranscription demoChat).requests = [] :=
  undersized_blob_never_reaches_inference demoState 1000 demoSettings "" 100
    demoTranscription demoChat (by decide)

/-- C6: a change of the profile language or gender makes the settings
effect clear the conversation (a non-empty conversation becomes empty, an
empty one stays empty), and without such a change the conversation is
left untouched. -/
theorem settings_change_clears_conversation (oldSettings newSettings : ChildSettings)
    (conversation : List ConversationMessage) :
    (oldSettings.language ≠ newSettings.language ∨ oldSettings.gender ≠ newSettings.gender →
      settingsChangeEffect oldSettings newSettings conversation = []) ∧
    (oldSettings.language = newSettings.language ∧ oldSettings.gender = newSettings.gender →
      settingsChangeEffect oldSettings newSettings conversation = conversation) := by
  constructor
  · intro h
    unfold settingsChangeEffect
    rw [if_pos h]
    split_ifs with hlen
    · rfl
    · exact List.length_eq_zero.mp (by omega)
  · rintro ⟨h1, h2⟩
    unfold settingsChangeEffect
    rw [if_neg (by push_neg; exact ⟨h1, h2⟩)]

/-- C6 witness: a concrete language change clears a non-empty
conversation, and identical settings leave it unchanged. -/
theorem settings_change_clears_conversation_witness :
    settingsChangeEffect demoSettings
        { demoSettings with language := Language.german } [mkUserMessage "hi"] = [] ∧
    settingsChangeEffect demoSettings demoSettings [mkUserMessage "hi"]
      = [mkUserMessage "hi"] :=
  ⟨(settings_change_clears_conversation demoSettings
      { demoSettings with language := Language.german } [mkUserMessage "hi"]).1
      (Or.inl (by decide)),
    (settings_change_clears_conversation demoSettings demoSettings
      [mkUserMessage "hi"]).2 ⟨rfl, rfl⟩⟩

/-- C7: with the api key present and a valid blob, the round fails with a
transcription-stage error exactly when the transcription response has a
non-success HTTP status or its returned text is empty or whitespace-only;
the blank-text case is reported as the could-not-understand error (not as
a network fault); and in every transcription-stage failure the
chat-completion request is not issued. -/
theorem transcription_failure_semantics (st : ChatState) (now : Nat)
    (settings : ChildSettings) (envApiKey : String) (blobSize : Nat)
    (tr : FetchOutcome TranscriptionResponse) (chat : FetchOutcome ChatResponse)
    (hkey : ¬ (if envApiKey ≠ "" then envApiKey else settings.apiKey) = "")
    (hblob : isValidAudioBlob blobSize = true) :
    (((processAudio st now settings envApiKey blobSize tr chat).error
        = some ProcessError.transcriptionHttpError ∨
      (processAudio st now settings envApiKey blobSize tr chat).error
        = some ProcessError.couldNotUnderstand)
      ↔ (tr = FetchOutcome.httpError ∨
          ∃ trData, tr = FetchOutcome.ok trData ∧ isBlankText trData.text = true)) ∧
    (∀ trData, tr = FetchOutcome.ok trData → isBlankText trData.text = true →
      (processAudio st now settings envApiKey blobSize tr chat).error
        = some ProcessError.couldNotUnderstand) ∧
    ((processAudio st now settings envApiKey blobSize tr chat).error
        = some ProcessError.transcriptionHttpError ∨
      (processAudio st now settings envApiKey blobSize tr chat).error
        = some ProcessError.couldNotUnderstand →
      Request.chatCompletion ∉
        (processAudio st now settings envApiKey blobSize tr chat).requests) := by
  unfold processAudio
  dsimp only
  rw [if_neg hkey, if_neg (not_not_intro hblob)]
  rcases tr with _ | _ | trData
  · simp
  · simp
  · dsimp only
    by_cases hblank : isBlankText trData.text = true
    · rw [if_pos hblank]
      simp [hblank]
    · rw [if_neg hblank]
      rcases chat with _ | _ | chatData <;> dsimp only <;> simp [hblank]

/-- C7 witness: a whitespace-only transcript on a concrete round yields the
could-not-understand error and the chat-completion request is not issued. -/
theorem transcription_failure_semantics_witness :
    (processAudio demoState 1000 demoSettings "" 2000
        (FetchOutcome.ok ⟨some "   "⟩) demoChat).error
      = some ProcessError.couldNotUnderstand ∧
    Request.chatCompletion ∉
      (processAudio demoState 1000 demoSettings "" 2000
        (FetchOutcome.ok ⟨some "   "⟩) demoChat).requests := by
  have h := transcription_failure_semantics demoState 1000 demoSettings "" 2000
    (FetchOutcome.ok ⟨some "   "⟩) demoChat (by decide) (by decide)
  have hblank := h.2.1 ⟨some "   "⟩ rfl (by decide)
  exact ⟨hblank, h.2.2 (Or.inr hblank)⟩

/-- C9: a successful startRandomConversation round replaces the stored
conversation with exactly the starter user turn and the new assistant
turn — afterwards the conversation has length exactly 2, whatever was
stored before. -/
theorem random_conversation_replaces_history (st : ChatState) (now : Nat)
    (settings : ChildSettings) (envApiKey starter : String) (chatData : ChatResponse)
    (hkey : ¬ (if envApiKey ≠ "" then envApiKey else settings.apiKey) = "") :
    (startRandomConversation st now settings envApiKey false false starter
        (FetchOutcome.ok chatData)).conversation
      = [mkUserMessage starter, assistantMessageOf chatData] ∧
    (startRandomConversation st now settings envApiKey false false starter
        (FetchOutcome.ok chatData)).conversation.length = 2 := by
  unfold startRandomConversation
  dsimp only
  rw [if_neg (by decide), if_neg hkey]
  exact ⟨rfl, rfl⟩

/-- C9 witness: a concrete successful random-conversation round on a
two-turn history ends with exactly the two new turns. -/
theorem random_conversation_replaces_history_witness :
    (startRandomConversation demoState 1000 demoSettings "" false false
        "Tell me about space"
        (FetchOutcome.ok ⟨some "Space is big.", none, none⟩)).conversation
      = [mkUserMessage "Tell me about space",
          assistantMessageOf ⟨some "Space is big.", none, none⟩] ∧
    (startRandomConversation demoState 1000 demoSettings "" false false
        "Tell me about space"
        (FetchOutcome.ok ⟨some "Space is big.", none, none⟩)).conversation.length = 2 :=
  random_conversation_replaces_history demoState 1000 demoSettings ""
    "Tell me about space" ⟨some "Space is big.", none, none⟩ (by decide)

/-- The idle-reset output preserves the absence of system turns. -/
theorem resetConversationIfNeeded_noSystem (conversation : List ConversationMessage)
    (now lastInteractionTime : Nat) (h : noSystemRole conversation) :
    noSystemRole (resetConversationIfNeeded conversation now lastInteractionTime).1 := by
  unfold resetConversationIfNeeded
  split_ifs
  · intro m hm
    cases hm
  · exact h

/-- Appending a user and an assistant turn preserves the absence of
system turns. -/
theorem noSystem_append_two (conversation : List ConversationMessage)
    (u a : ConversationMessage) (h : noSystemRole conversation)
    (hu : u.role = Role.user) (ha : a.role = Role.assistant) :
    noSystemRole (conversation ++ [u, a]) := by
  intro m hm
  rcases List.mem_append.mp hm with hm | hm
  · exact h m hm
  · rcases List.mem_cons.mp hm with rfl | hm2
    · simp [hu]
    · rcases List.mem_cons.mp hm2 with rfl | hm3
      · simp [ha]
      · cases hm3

/-- C10: the stored conversation never gains a system-role turn: every
operation that writes the store (a processAudio round, a
startRandomConversation round, clearConversation, the settings-change
effect) preserves the absence of system turns, and the system prompt is
built freshly per request and prepended only to the outgoing message
array handed to the chat-completion endpoint. -/
theorem stored_history_never_contains_system_turn (st : ChatState) (now : Nat)
    (settings oldSettings : ChildSettings) (envApiKey starter : String)
    (blobSize : Nat) (tr : FetchOutcome TranscriptionResponse)
    (chat chat2 : FetchOutcome ChatResponse) (isRecording isLoading : Bool)
    (h : noSystemRole st.conversation) :
    noSystemRole (processAudio st now settings envApiKey blobSize tr chat).conversation ∧
    noSystemRole (startRandomConversation st now settings envApiKey
        isRecording isLoading starter chat2).conversation ∧
    noSystemRole (clearConversation st.conversation) ∧
    noSystemRole (settingsChangeEffect oldSettings settings st.conversation) ∧
    (∀ msgs, (processAudio st now settings envApiKey blobSize tr chat).chatRequestMessages
        = some msgs →
      ∃ t, msgs = systemMessage settings :: (st.conversation ++ [mkUserMessage t])) ∧
    (∀ msgs, (startRandomConversation st now settings envApiKey
        isRecording isLoading starter chat2).chatRequestMessages = some msgs →
      msgs = [randomSystemMessage settings, mkUserMessage starter]) := by
  refine ⟨?_, ?_, ?_, ?_, ?_, ?_⟩
  · by_cases he : (processAudio st now settings envApiKey blobSize tr chat).error = none
    · obtain ⟨u, a, hu, ha, hconv⟩ :=
        processAudio_success_conversation st now settings envApiKey blobSize tr chat he
      rw [hconv]
      exact noSystem_append_two st.conversation u a h hu ha
    · rw [processAudio_failure_conversation st now settings envApiKey blobSize tr chat he]
      exact resetConversationIfNeeded_noSystem st.conversation now st.lastInteractionTime h
  · unfold startRandomConversation
    dsimp only
    by_cases hguard : (isRecording || isLoading) = true
    · rw [if_pos hguard]
      exact h
    · rw [if_neg hguard]
      by_cases hkey : (if envApiKey ≠ "" then envApiKey else settings.apiKey) = ""
      · rw [if_pos hkey]
        exact resetConversationIfNeeded_noSystem st.conversation now st.lastInteractionTime h
      · rw [if_neg hkey]
        rcases chat2 with _ | _ | chatData <;> dsimp only
        · exact resetConversationIfNeeded_noSystem st.conversation now st.lastInteractionTime h
        · exact resetConversationIfNeeded_noSystem st.conversation now st.lastInteractionTime h
        · exact noSystem_append_two [] (mkUserMessage starter) (assistantMessageOf chatData)
            (fun m hm => absurd hm (List.not_mem_nil m)) rfl
            (assistantMessageOf_role chatData)
  · intro m hm
    cases hm
  · unfold settingsChangeEffect
    split_ifs
    · intro m hm
      cases hm
    · exact h
    · exact h
  · unfold processAudio
    dsimp only
    simp only [messages_branch_eq]
    rcases tr with _ | _ | trData <;> dsimp only <;> split_ifs <;>
      intro msgs hmsgs <;>
      first
        | exact Option.noConfusion hmsgs
        | rcases chat with _ | _ | chatData <;> dsimp only at hmsgs <;>
            first
              | exact Option.noConfusion hmsgs
              | exact ⟨_, (Option.some.inj hmsgs).symm⟩
  · unfold startRandomConversation
    dsimp only
    split_ifs <;> intro msgs hmsgs <;>
      first
        | exact Option.noConfusion hmsgs
        | rcases chat2 with _ | _ | chatData <;> dsimp only at hmsgs <;>
            first
              | exact Option.noConfusion hmsgs
              | exact (Option.some.inj hmsgs).symm

/-- C10 witness: a concrete successful round keeps the stored history free
of system turns, for both round kinds. -/
theorem stored_history_never_contains_system_turn_witness :
    noSystemRole (processAudio demoState 1000 demoSettings "" 2000
        demoTranscription demoChat).conversation ∧
    noSystemRole (startRandomConversation demoState 1000 demoSettings ""
        false false "Tell me about space" demoChat).conversation :=
  have h := stored_history_never_contains_system_turn demoState 1000 demoSettings
    demoSettings "" "Tell me about space" 2000 demoTranscription demoChat demoChat
    false false (by simp only [noSystemRole]; decide)
  ⟨h.1, h.2.1⟩

/-- C4 counterexample: on a non-iOS platform starting in chunked mode, two
consecutive recorder-construction failures leave the strategy unchanged,
and the next recording attempt still does not use the manual sample
encoder — every failure handler that advances the switch is guarded by
the iOS check. -/
theorem non_ios_failures_never_switch :
    usesManualEncoder false
        (strategyRun false (initialStrategyState false)
          [RecordingEvent.constructionFailure, RecordingEvent.constructionFailure])
      = false ∧
    strategyRun false (initialStrategyState false)
        [RecordingEvent.constructionFailure, RecordingEvent.constructionFailure]
      = initialStrategyState false := by
  constructor <;> decide

/-- C4 (amended): only on iOS does the failure fallback operate. On iOS in
chunked mode, 2 consecutive completed-recording failures (empty or
undersized payload, or a processing error) make every later attempt use
the manual sample encoder; a single recorder runtime error or a single
total construction failure switches as well; once set, no event except
the manual override keeps the flag from staying set, so the switch is
permanent for the session unless the override toggles the mode (which
also resets the failure counter). On a non-iOS platform no event except
the override changes the strategy state, and the manual encoder is never
selected there. -/
theorem strategy_switch_behaviour (p : Bool) (s : StrategyState) (ev : RecordingEvent) :
    (usesManualEncoder true
        (strategyRun true (initialStrategyState false)
          [RecordingEvent.captureFailure, RecordingEvent.captureFailure]) = true) ∧
    (s.useAlternativeRecording = true → ev ≠ RecordingEvent.toggleMethod →
      (strategyStep p s ev).useAlternativeRecording = true) ∧
    (s.useAlternativeRecording = false →
      (strategyStep true s RecordingEvent.recorderError).useAlternativeRecording = true) ∧
    ((strategyStep true s RecordingEvent.constructionFailure).useAlternativeRecording = true) ∧
    (ev ≠ RecordingEvent.toggleMethod → strategyStep false s ev = s) ∧
    (usesManualEncoder false s = false) ∧
    (strategyStep p s RecordingEvent.toggleMethod
      = ⟨!s.useAlternativeRecording, 0⟩) := by
  rcases s with ⟨alt, count⟩
  refine ⟨by decide, ?_, ?_, ?_, ?_, ?_, ?_⟩
  · intro halt hev
    rcases ev <;> rcases p <;> simp_all [strategyStep]
  · intro halt
    subst halt
    simp [strategyStep]
  · rcases alt <;> simp [strategyStep]
  · intro hev
    rcases ev <;> simp_all [strategyStep]
  · simp [usesManualEncoder]
  · rcases alt <;> simp [strategyStep, Bool.not_true, Bool.not_false]

/-- C4 witness: on iOS in chunked mode the second capture failure switches
to the manual encoder, a later capture failure keeps it, and the manual
override toggles it back while resetting the counter. -/
theorem strategy_switch_behaviour_witness :
    usesManualEncoder true
        (strategyRun true (initialStrategyState false)
          [RecordingEvent.captureFailure, RecordingEvent.captureFailure]) = true ∧
    (strategyStep true ⟨true, 2⟩ RecordingEvent.captureFailure).useAlternativeRecording
      = true ∧
    strategyStep true ⟨true, 2⟩ RecordingEvent.toggleMethod = ⟨false, 0⟩ :=
  have h := strategy_switch_behaviour true ⟨true, 2⟩ RecordingEvent.captureFailure
  ⟨h.1, h.2.1 rfl (by decide), (strategy_switch_behaviour true ⟨true, 2⟩
      RecordingEvent.captureFailure).2.2.2.2.2.2⟩

/-- C8 counterexample: a stored profile carrying the unrecognized legacy
field legacyPet still contains that field after load — the migration
drops only the specific customPrompt field, not any unrecognized field. -/
theorem unrecognized_field_survives_load :
    ("legacyPet", "dragon")
      ∈ loadChildSettings (some [("name", "Mia"), ("legacyPet", "dragon")]) := by
  decide

/-- C8 (amended): on load, exactly the legacy customPrompt field is
dropped when present (every other field, recognized or not, is preserved
unchanged and in order); a stored object without customPrompt is returned
as parsed; and with no stored profile the default profile
(name, age and apiKey empty, gender other, language english) is used. -/
theorem load_settings_migration (parsed : List (String × String)) :
    (loadChildSettings none = defaultStoredSettings) ∧
    (parsed.any (fun kv => kv.1 = "customPrompt") = true →
      loadChildSettings (some parsed) = parsed.filter (fun kv => kv.1 ≠ "customPrompt")) ∧
    (parsed.any (fun kv => kv.1 = "customPrompt") = false →
      loadChildSettings (some parsed) = parsed) ∧
    (∀ kv ∈ parsed, kv.1 ≠ "customPrompt" → kv ∈ loadChildSettings (some parsed)) := by
  refine ⟨rfl, ?_, ?_, ?_⟩
  · intro hhas
    simp only [loadChildSettings]
    rw [if_pos hhas]
  · intro hnot
    simp only [loadChildSettings]
    rw [if_neg (by simp [hnot])]
  · intro kv hkv hne
    simp only [loadChildSettings]
    split_ifs with hhas
    · exact List.mem_filter.mpr ⟨hkv, by simpa using hne⟩
    · exact hkv

/-- C8 witness: a concrete stored profile with customPrompt loses exactly
that field, and its other fields survive. -/
theorem load_settings_migration_witness :
    loadChildSettings (some [("name", "Mia"), ("customPrompt", "old"), ("apiKey", "k")])
      = [("name", "Mia"), ("apiKey", "k")] ∧
    ("apiKey", "k")
      ∈ loadChildSettings
          (some [("name", "Mia"), ("customPrompt", "old"), ("apiKey", "k")]) :=
  have h := load_settings_migration [("name", "Mia"), ("customPrompt", "old"), ("apiKey", "k")]
  ⟨(h.2.1 (by decide)).trans (by decide),
    h.2.2.2 ("apiKey", "k") (by decide) (by decide)⟩

/-- Byte values of the RIFF tag. -/
theorem writeUTFBytes_RIFF : writeUTFBytes "RIFF" = [82, 73, 70, 70] := by decide

/-- Byte values of the WAVE tag. -/
theorem writeUTFBytes_WAVE : writeUTFBytes "WAVE" = [87, 65, 86, 69] := by decide

/-- Byte values of the fmt sub-chunk tag. -/
theorem writeUTFBytes_fmt : writeUTFBytes "fmt " = [102, 109, 116, 32] := by decide

/-- Byte values of the data sub-chunk tag. -/
theorem writeUTFBytes_data : writeUTFBytes "data" = [100, 97, 116, 97] := by decide

/-- The header is exactly 44 bytes long. -/
theorem wavHeader_length (numSamples sampleRate : Nat) :
    (wavHeader numSamples sampleRate).length = 44 := by
  simp [wavHeader, u32le, u16le, writeUTFBytes_RIFF, writeUTFBytes_WAVE,
    writeUTFBytes_fmt, writeUTFBytes_data]

/-- Each encoded sample contributes exactly two bytes. -/
theorem flatten_sample_bytes_length (samples : List ℚ) :
    ((samples.map (fun s => int16le (floatToInt16 s))).flatten).length
      = 2 * samples.length := by
  induction samples with
  | nil => rfl
  | cons s rest ih =>
      have hlen : (int16le (floatToInt16 s)).length = 2 := rfl
      simp only [List.map_cons, List.flatten_cons, List.length_append, hlen, ih,
        List.length_cons]
      omega

/-- Truncation toward zero stays inside integer bounds that bracket the
value and the origin. -/
theorem jsTrunc_bounds (q : ℚ) (lo hi : ℤ) (hlo : (lo : ℚ) ≤ q) (hhi : q ≤ (hi : ℚ))
    (hlo0 : lo ≤ 0) (hhi0 : 0 ≤ hi) : lo ≤ jsTrunc q ∧ jsTrunc q ≤ hi := by
  unfold jsTrunc
  split_ifs with hneg
  · constructor
    · have h1 : -q ≤ ((-lo : ℤ) : ℚ) := by push_cast; linarith
      have h2 := Int.floor_mono h1
      rw [Int.floor_intCast] at h2
      omega
    · have h1 : (0 : ℚ) ≤ -q := by linarith
      have h2 : 0 ≤ Int.floor (-q) := Int.floor_nonneg.mpr h1
      omega
  · constructor
    · have h1 : (0 : ℚ) ≤ q := not_lt.mp hneg
      have h2 : 0 ≤ Int.floor q := Int.floor_nonneg.mpr h1
      omega
    · have h2 := Int.floor_mono hhi
      rw [Int.floor_intCast] at h2
      omega

/-- The converted sample always fits in a signed 16-bit integer. -/
theorem floatToInt16_range (s : ℚ) :
    -32768 ≤ floatToInt16 s ∧ floatToInt16 s ≤ 32767 := by
  unfold floatToInt16
  dsimp only
  have h1 : (-1 : ℚ) ≤ max (-1 : ℚ) (min 1 (s * (9 / 10))) := le_max_left _ _
  have h2 : max (-1 : ℚ) (min 1 (s * (9 / 10))) ≤ 1 :=
    max_le (by norm_num) (min_le_left _ _)
  split_ifs with hneg
  · have hb := jsTrunc_bounds (max (-1 : ℚ) (min 1 (s * (9 / 10))) * 32768) (-32768) 0
      (by push_cast; nlinarith) (by push_cast; nlinarith) (by norm_num) (by norm_num)
    exact ⟨hb.1, le_trans hb.2 (by norm_num)⟩
  · have h0 : (0 : ℚ) ≤ max (-1 : ℚ) (min 1 (s * (9 / 10))) := not_lt.mp hneg
    have hb := jsTrunc_bounds (max (-1 : ℚ) (min 1 (s * (9 / 10))) * 32767) 0 32767
      (by push_cast; nlinarith) (by push_cast; nlinarith) (by norm_num) (by norm_num)
    exact ⟨le_trans (by norm_num) hb.1, hb.2⟩

/-- Folding append over the accumulated buffers concatenates them in
order after the accumulator. -/
theorem foldl_append_eq (l : List (List ℚ)) (acc : List ℚ) :
    l.foldl (fun a buffer => a ++ buffer) acc = acc ++ l.flatten := by
  induction l generalizing acc with
  | nil => simp
  | cons x xs ih => simp [List.foldl_cons, ih, List.flatten_cons, List.append_assoc]

/-- C5: the manual encoder merges the per-callback sample buffers in
capture order into one contiguous array, and encodeWavFile produces
exactly 44 + 2n bytes for n samples: a 44-byte header declaring PCM
format tag 1 (bytes 20-21), channel count 1 (bytes 22-23), the capture
sample rate (bytes 24-27, little endian) and 16 bits per sample
(bytes 34-35), followed by the two little-endian bytes of each sample
after multiplication by 0.9, clamping to [-1, 1] and signed 16-bit
conversion (the converted value always fits in the signed 16-bit
range). -/
theorem wav_encoding_layout (samples : List ℚ) (sampleRate : Nat)
    (recordingBuffer : List (List ℚ)) :
    ((encodeWavFile samples sampleRate).length = 44 + 2 * samples.length) ∧
    ((encodeWavFile samples sampleRate).take 44 = wavHeader samples.length sampleRate) ∧
    ((encodeWavFile samples sampleRate).drop 44
        = (samples.map (fun s => int16le (floatToInt16 s))).flatten) ∧
    ((wavHeader samples.length sampleRate)[20]? = some 1) ∧
    ((wavHeader samples.length sampleRate)[21]? = some 0) ∧
    ((wavHeader samples.length sampleRate)[22]? = some 1) ∧
    ((wavHeader samples.length sampleRate)[23]? = some 0) ∧
    ((wavHeader samples.length sampleRate)[24]? = some (sampleRate % 256)) ∧
    ((wavHeader samples.length sampleRate)[25]? = some (sampleRate / 256 % 256)) ∧
    ((wavHeader samples.length sampleRate)[26]? = some (sampleRate / 65536 % 256)) ∧
    ((wavHeader samples.length sampleRate)[27]? = some (sampleRate / 16777216 % 256)) ∧
    ((wavHeader samples.length sampleRate)[34]? = some 16) ∧
    ((wavHeader samples.length sampleRate)[35]? = some 0) ∧
    (∀ s : ℚ, -32768 ≤ floatToInt16 s ∧ floatToInt16 s ≤ 32767) ∧
    (mergeRecordingBuffers recordingBuffer = recordingBuffer.flatten) ∧
    (audioContextRecorderStop recordingBuffer sampleRate
        = encodeWavFile recordingBuffer.flatten sampleRate) := by
  have hmerge : mergeRecordingBuffers recordingBuffer = recordingBuffer.flatten := by
    unfold mergeRecordingBuffers
    rw [foldl_append_eq]
    simp
  have hheader : (wavHeader samples.length sampleRate)
      = 82 :: 73 :: 70 :: 70
        :: ((36 + samples.length * 2) % 256) :: ((36 + samples.length * 2) / 256 % 256)
        :: ((36 + samples.length * 2) / 65536 % 256)
        :: ((36 + samples.length * 2) / 16777216 % 256)
        :: 87 :: 65 :: 86 :: 69 :: 102 :: 109 :: 116 :: 32
        :: 16 :: 0 :: 0 :: 0 :: 1 :: 0 :: 1 :: 0
        :: (sampleRate % 256) :: (sampleRate / 256 % 256)
        :: (sampleRate / 65536 % 256) :: (sampleRate / 16777216 % 256)
        :: (sampleRate * 2 % 256) :: (sampleRate * 2 / 256 % 256)
        :: (sampleRate * 2 / 65536 % 256) :: (sampleRate * 2 / 16777216 % 256)
        :: 2 :: 0 :: 16 :: 0 :: 100 :: 97 :: 116 :: 97
        :: (samples.length * 2 % 256) :: (samples.length * 2 / 256 % 256)
        :: (samples.length * 2 / 65536 % 256)
        :: [samples.length * 2 / 16777216 % 256] := by
    simp [wavHeader, u32le, u16le, writeUTFBytes_RIFF, writeUTFBytes_WAVE,
      writeUTFBytes_fmt, writeUTFBytes_data]
  refine ⟨?_, ?_, ?_, ?_, ?_, ?_, ?_, ?_, ?_, ?_, ?_, ?_, ?_,
    floatToInt16_range, hmerge, ?_⟩
  · unfold encodeWavFile
    rw [List.length_append, wavHeader_length, flatten_sample_bytes_length]
  · unfold encodeWavFile
    exact List.take_left' (wavHeader_length samples.length sampleRate)
  · unfold encodeWavFile
    exact List.drop_left' (wavHeader_length samples.length sampleRate)
  · rw [hheader]; rfl
  · rw [hheader]; rfl
  · rw [hheader]; rfl
  · rw [hheader]; rfl
  · rw [hheader]; rfl
  · rw [hheader]; rfl
  · rw [hheader]; rfl
  · rw [hheader]; rfl
  · rw [hheader]; rfl
  · rw [hheader]; rfl
  · unfold audioContextRecorderStop
    rw [hmerge]

end PetChat
